import Mathlib

/-!
Shallow embedding of src/services/CampaignService.js (giveth-dapp).

The service is a data-access facade: read operations build feathers queries
and map responses into model objects; the two mutations (save, cancel)
orchestrate a blockchain call whose transactionHash / mined / rejection
events drive store writes and the afterCreate / afterMined callbacks.

External collaborators (the feathers store, the chain client, the model
constructors) are embedded as follows: the outcome of every external call is
an explicit environment value handed to the embedded function, and every
observable call the service makes (store patch/create, factory invocation,
callback invocation, error popup) is emitted as an element of an action
trace, in program order.  The feathers server evaluation of a query object,
and the model constructors Campaign/Donation (src/models is not part of the
analysed sources), are modelled from the spec where noted.
-/

/-- A JavaScript error value; only its message field is inspected by the code. -/
structure JsError where
  message : String
deriving DecidableEq, Repr

/-- JS string interpolation of a possibly-undefined variable: template
literals render undefined as the text undefined. -/
def jsStr : Option String → String
  | none => "undefined"
  | some s => s

/-- Models JSON.stringify(err, null, 2) on an error object. -/
def stringifyErr (e : JsError) : String :=
  "\x7b\n  \"message\": \"" ++ e.message ++ "\"\n\x7d"

/-- Boolean test that list b starts with list a. -/
def leadsWith [DecidableEq α] : List α → List α → Bool
  | [], _ => true
  | _ :: _, [] => false
  | a :: as, b :: bs => a == b && leadsWith as bs

/-- Boolean test that sub occurs as a contiguous segment of l. -/
def hasSegment [DecidableEq α] (sub : List α) : List α → Bool
  | [] => leadsWith sub []
  | b :: bs => leadsWith sub (b :: bs) || hasSegment sub bs

/-- JS String.prototype.includes: does s contain sub as a substring. -/
def includesSubstr (s sub : String) : Bool :=
  hasSegment sub.toList s.toList

/-- Campaign status enumeration (Campaign.ACTIVE / Campaign.CANCELED in the
source; the model file is outside the analysed sources, statuses are the
Pending/Active/Canceled enumeration the spec gives). -/
inductive Status where
  | Pending
  | Active
  | Canceled
deriving DecidableEq, Repr

/-- Milestone status enumeration (Milestone.CANCELED / PROPOSED / REJECTED /
PENDING plus active states, per the spec data model). -/
inductive MilestoneStatus where
  | Canceled
  | Proposed
  | Rejected
  | Pending
  | InProgress
  | NeedsReview
  | Completed
  | Paid
deriving DecidableEq, Repr

/-- A raw campaign record as stored by the feathers service. -/
structure CampaignRecord where
  _id : String
  projectId : Int
  status : Status
  createdAt : Int
  title : String
  reviewerAddress : String
  pluginAddress : String
  ownerAddress : String
deriving DecidableEq, Repr

/-- A raw milestone record as stored by the feathers service. -/
structure MilestoneRecord where
  _id : String
  campaignId : String
  status : MilestoneStatus
  createdAt : Int
deriving DecidableEq, Repr

/-- A raw donation record as stored by the feathers service. -/
structure DonationRecord where
  _id : String
  campaignId : String
  isReturn : Bool
  createdAt : Int
deriving DecidableEq, Repr

/-- The Campaign domain object fields this module reads. -/
structure Campaign where
  id : Option String
  title : String
  reviewerAddress : String
  pluginAddress : String
deriving DecidableEq, Repr

/-- Modelled from the spec: the Campaign model constructor (src/models is not
among the analysed sources) normalizes a raw record into a domain object.
Only the some case follows the spec; the none case corresponds to
new Campaign(undefined) on an empty find result, whose behavior the spec
declares undefined (it may well throw, in which case get would reject
through its catch), so the value returned there is an arbitrary placeholder
that no theorem in this file relies on. -/
def Campaign.fromRecord : Option CampaignRecord → Campaign
  | none => ⟨none, "", "", ""⟩
  | some r => ⟨some r._id, r.title, r.reviewerAddress, r.pluginAddress⟩

/-- Modelled from the spec: the serialized (toFeathers) form of a campaign,
optionally carrying the transaction hash passed to toFeathers. -/
structure FeathersCampaignForm where
  campaign : Campaign
  txHash : Option String
deriving DecidableEq, Repr

/-- Modelled from the spec: campaign.toFeathers(txHash); the update branch
calls it with no argument, embedded as none. -/
def Campaign.toFeathers (c : Campaign) (txHash : Option String) : FeathersCampaignForm :=
  ⟨c, txHash⟩

/-- The Donation domain object, built from a raw record. -/
structure Donation where
  record : DonationRecord
deriving DecidableEq, Repr

/-- Modelled from the spec: the Donation model constructor wraps a raw record. -/
def Donation.fromRecord (r : DonationRecord) : Donation := ⟨r⟩

/-- Insert x into a list sorted descending by key, keeping it sorted. -/
def insertDescBy (key : α → Int) (x : α) : List α → List α
  | [] => [x]
  | y :: ys => if key y < key x then x :: y :: ys else y :: insertDescBy key x ys

/-- Sort a list descending by key (the feathers sort createdAt -1). -/
def sortDescBy (key : α → Int) : List α → List α
  | [] => []
  | x :: xs => insertDescBy key x (sortDescBy key xs)

/-- A feathers find response: page of records plus total match count. -/
structure FindResp (α : Type) where
  data : List α
  total : Nat
deriving DecidableEq, Repr

/-- The query object built by getCampaigns (projectId: \x7b$gt: 0\x7d,
status: Campaign.ACTIVE, $limit, $skip, $sort createdAt -1). -/
structure CampaignsQuery where
  projectIdGt : Int
  status : Status
  limit : Nat
  skip : Nat
  sortCreatedAtDesc : Bool
deriving DecidableEq, Repr

/-- The concrete query getCampaigns sends. -/
def getCampaignsQuery (limit skip : Nat) : CampaignsQuery :=
  ⟨0, Status.Active, limit, skip, true⟩

/-- Default value of the $limit parameter of getCampaigns. -/
def getCampaignsDefaultLimit : Nat := 100

/-- Default value of the $skip parameter of getCampaigns. -/
def getCampaignsDefaultSkip : Nat := 0

/-- Whether a record matches the filters of a getCampaigns query. -/
def campaignMatches (q : CampaignsQuery) (r : CampaignRecord) : Bool :=
  q.projectIdGt < r.projectId && r.status == q.status

/-- Modelled from the spec: feathers find evaluation for a campaigns query
(filter, sort createdAt descending, then $skip/$limit paging; total is the
pre-paging match count). -/
def campaignsFindEval (store : List CampaignRecord) (q : CampaignsQuery) :
    FindResp CampaignRecord :=
  let matched := store.filter (campaignMatches q)
  let sorted := if q.sortCreatedAtDesc then sortDescBy CampaignRecord.createdAt matched else matched
  ⟨(sorted.drop q.skip).take q.limit, matched.length⟩

/-- Callback invocations a one-shot read operation performs. -/
inductive ReadAct (α : Type) where
  | onSuccess (data : List α) (total : Nat)
  | onError (e : JsError)
deriving DecidableEq, Repr

/-- getCampaigns: find with the active-campaigns query, then either
onSuccess(data mapped to Campaign, total) or onError(failure).  The
environment is the store contents on fulfilment, or the rejection. -/
def getCampaigns (limit skip : Nat) (env : Except JsError (List CampaignRecord)) :
    List (ReadAct Campaign) :=
  match env with
  | .error e => [.onError e]
  | .ok store =>
      let resp := campaignsFindEval store (getCampaignsQuery limit skip)
      [.onSuccess (resp.data.map (fun c => Campaign.fromRecord (some c))) resp.total]

/-- The query object built by getMilestones (campaignId, status $nin
[CANCELED, PROPOSED, REJECTED, PENDING], $sort createdAt -1, $limit, $skip). -/
structure MilestonesQuery where
  campaignId : String
  statusNin : List MilestoneStatus
  sortCreatedAtDesc : Bool
  limit : Nat
  skip : Nat
deriving DecidableEq, Repr

/-- The concrete query getMilestones sends. -/
def getMilestonesQuery (id : String) (limit skip : Nat) : MilestonesQuery :=
  ⟨id, [MilestoneStatus.Canceled, MilestoneStatus.Proposed,
        MilestoneStatus.Rejected, MilestoneStatus.Pending], true, limit, skip⟩

/-- Whether a record matches the filters of a getMilestones query. -/
def milestoneMatches (q : MilestonesQuery) (r : MilestoneRecord) : Bool :=
  r.campaignId == q.campaignId && !(q.statusNin.contains r.status)

/-- Modelled from the spec: feathers find evaluation for a milestones query. -/
def milestonesFindEval (store : List MilestoneRecord) (q : MilestonesQuery) :
    FindResp MilestoneRecord :=
  let matched := store.filter (milestoneMatches q)
  let sorted := if q.sortCreatedAtDesc then sortDescBy MilestoneRecord.createdAt matched else matched
  ⟨(sorted.drop q.skip).take q.limit, matched.length⟩

/-- getMilestones: find, then onSuccess(raw records, total) - the records are
passed through without a Milestone constructor - or onError(failure). -/
def getMilestones (id : String) (limit skip : Nat)
    (env : Except JsError (List MilestoneRecord)) : List (ReadAct MilestoneRecord) :=
  match env with
  | .error e => [.onError e]
  | .ok store =>
      let resp := milestonesFindEval store (getMilestonesQuery id limit skip)
      [.onSuccess resp.data resp.total]

/-- The query and params subscribeDonations sends (campaignId,
isReturn: false, $sort createdAt -1, schema includeTypeAndGiverDetails,
watch listStrategy always). -/
structure DonationsQuery where
  campaignId : String
  isReturn : Bool
  sortCreatedAtDesc : Bool
  schema : String
  listStrategy : String
deriving DecidableEq, Repr

/-- The concrete query subscribeDonations sends. -/
def subscribeDonationsQuery (id : String) : DonationsQuery :=
  ⟨id, false, true, "includeTypeAndGiverDetails", "always"⟩

/-- Whether a record matches the filters of the donations query. -/
def donationMatches (q : DonationsQuery) (r : DonationRecord) : Bool :=
  r.campaignId == q.campaignId && r.isReturn == q.isReturn

/-- Modelled from the spec: feathers find evaluation for the donations
subscription; no paging parameters, so the full filtered sorted set. -/
def donationsFindEval (store : List DonationRecord) (q : DonationsQuery) :
    List DonationRecord :=
  let matched := store.filter (donationMatches q)
  if q.sortCreatedAtDesc then sortDescBy DonationRecord.createdAt matched else matched

/-- Callback invocations of a subscription; each store change pushes either
the full re-listed result set or a delivery failure. -/
inductive SubAct where
  | onSuccess (ds : List Donation)
  | onError (e : JsError)
deriving DecidableEq, Repr

/-- The handle a subscribe call returns; unsubscribing deactivates it. -/
structure SubscriptionHandle where
  active : Bool
deriving DecidableEq, Repr

/-- Cancels a subscription handle. -/
def SubscriptionHandle.unsubscribe (_h : SubscriptionHandle) : SubscriptionHandle :=
  ⟨false⟩

/-- subscribeDonations: returns the live handle and, for the given sequence
of server emissions (each the current store contents, or a failure), the
callback invocations: every fulfilment delivers the full evaluated result
set mapped into Donation objects. -/
def subscribeDonations (id : String)
    (emissions : List (Except JsError (List DonationRecord))) :
    SubscriptionHandle × List SubAct :=
  (⟨true⟩,
   emissions.map (fun em =>
     match em with
     | .error e => SubAct.onError e
     | .ok store =>
         SubAct.onSuccess
           ((donationsFindEval store (subscribeDonationsQuery id)).map Donation.fromRecord)))

/-- The records the find of get(id) returns: the query is the single equality
filter \x7b _id: id \x7d, with no sort or paging. -/
def idFindEval (store : List CampaignRecord) (id : String) : List CampaignRecord :=
  store.filter (fun r => r._id == id)

/-- get(id): find with query \x7b _id: id \x7d; on fulfilment resolve with
new Campaign(resp.data[0]) - data[0] is undefined on an empty result, hence
the Option - and on rejection reject with the same failure (catch(reject)).
The fulfilled empty-result value is the placeholder branch of
Campaign.fromRecord and is not asserted by any theorem: the spec declares
that case undefined behavior. -/
def CampaignService.get (id : String) (env : Except JsError (List CampaignRecord)) :
    Except JsError Campaign :=
  match env with
  | .error e => .error e
  | .ok store => .ok (Campaign.fromRecord (idFindEval store id).head?)

/-- Network metadata resolved by getNetwork: the factory handle is implicit
in the factory-call action, the etherscan field is the explorer base URL. -/
structure Network where
  etherscan : String
deriving DecidableEq, Repr

/-- The observable calls save and cancel make, in program order. -/
inductive Act where
  | resolveNetwork
  | resolveNetworkAndWeb3
  | factoryNewCampaign (title url : String) (parentProject : Nat) (reviewer sender : String)
  | newLPPCampaign (pluginAddress : String)
  | cancelCampaignCall (sender : String)
  | storePatch (service : String) (id : String) (body : FeathersCampaignForm)
  | storePatchStatus (service : String) (id : Option String) (status : Status) (mined : Bool)
  | storeCreate (service : String) (body : FeathersCampaignForm)
  | afterCreate (link : String) (newId : Option String)
  | afterMined (arg : Option String)
  | errorPopup (message detail : String)
  | errorPopupObj (message : String) (e : JsError)
deriving DecidableEq, Repr

/-- Actions that touch the blockchain (network or web3 resolution, factory
or contract-instance invocation). -/
def Act.isBlockchain : Act → Bool
  | .resolveNetwork => true
  | .resolveNetworkAndWeb3 => true
  | .factoryNewCampaign _ _ _ _ _ => true
  | .newLPPCampaign _ => true
  | .cancelCampaignCall _ => true
  | _ => false

/-- Actions that write to the feathers store. -/
def Act.isStoreWrite : Act → Bool
  | .storePatch _ _ _ => true
  | .storePatchStatus _ _ _ _ => true
  | .storeCreate _ _ => true
  | _ => false

/-- The fatal-popup message of save. -/
def saveFatalMsg : String :=
  "Something went wrong with the transaction. Is your wallet unlocked?"

/-- The fatal-popup message of cancel. -/
def cancelFatalMsg : String :=
  "Something went wrong with cancelling your campaign"

/-- The detail payload of a fatal popup: the template
etherScanUrl tx/ txHash followed by the stringified error, with undefined
rendered for unassigned variables. -/
def fatalDetail (url txHash : Option String) (e : JsError) : String :=
  jsStr url ++ "tx/" ++ jsStr txHash ++ " => " ++ stringifyErr e

/-- Events the factory call of the save create branch can produce, plus the
resolution of the feathers create started by the transactionHash handler. -/
inductive SaveEvent where
  | transactionHash (hash : String)
  | createResolved (newId : String)
  | mined
  | failed (e : JsError)
deriving DecidableEq, Repr

/-- One event of the save create branch: the state is the txHash variable
(assigned once by the once-registered transactionHash handler).  On
transactionHash: record the hash and create the store record (serialized
campaign including the hash); when that create resolves: afterCreate with
the explorer link and the new id.  On mined: afterMined with the explorer
link.  On rejection: return without any action if txHash is set and the
message contains unknown transaction, otherwise the fatal popup. -/
def saveStep (url : String) (c : Campaign) (s : Option String) :
    SaveEvent → Option String × List Act
  | .transactionHash h =>
      match s with
      | some _ => (s, [])
      | none => (some h, [.storeCreate "campaigns" (c.toFeathers (some h))])
  | .createResolved newId =>
      (s, [.afterCreate (url ++ "tx/" ++ jsStr s) (some newId)])
  | .mined =>
      (s, [.afterMined (some (url ++ "tx/" ++ jsStr s))])
  | .failed e =>
      (s, if s.isSome && !(e.message == "") && includesSubstr e.message "unknown transaction"
          then []
          else [.errorPopup saveFatalMsg (fatalDetail (some url) s e)])

/-- Fold of saveStep over an event sequence, concatenating emitted actions. -/
def runSave (url : String) (c : Campaign) : Option String → List SaveEvent → List Act
  | _, [] => []
  | s, ev :: rest =>
      let p := saveStep url c s ev
      p.2 ++ runSave url c p.1 rest

/-- The environment of one save call: the getNetwork outcome and the event
sequence of the factory call (create branch), and the patch outcome (update
branch). -/
structure SaveEnv where
  network : Except JsError Network
  patchOutcome : Except JsError Unit
  events : List SaveEvent
deriving Repr

/-- save(campaign, from, afterCreate, afterMined).  Update branch (id set):
patch the record with toFeathers() and call afterMined() on fulfilment; the
patch chain has no catch, so a rejection does nothing further.  Create
branch (no id): resolve the network; on rejection the outer catch pops the
fatal message with both template variables still unassigned; on fulfilment
invoke the factory newCampaign(title, empty, 0, reviewerAddress) from the
sender and run the event sequence. -/
def save (c : Campaign) (sender : String) (env : SaveEnv) : List Act :=
  match c.id with
  | some cid =>
      Act.storePatch "campaigns" cid (c.toFeathers none) ::
      (match env.patchOutcome with
       | .ok _ => [.afterMined none]
       | .error _ => [])
  | none =>
      Act.resolveNetwork ::
      (match env.network with
       | .error e => [.errorPopup saveFatalMsg (fatalDetail none none e)]
       | .ok nw =>
           Act.factoryNewCampaign c.title "" 0 c.reviewerAddress sender ::
           runSave nw.etherscan c none env.events)

/-- Events the cancelCampaign call of cancel can produce, plus the
settlement of the status patch started by the transactionHash handler. -/
inductive CancelEvent where
  | transactionHash (hash : String)
  | patchSettled (outcome : Except JsError Unit)
  | mined
  | failed (e : JsError)
deriving Repr

/-- One event of cancel.  On transactionHash: record the hash, start the
patch of the record to status Canceled with mined false, and - because the
code passes afterCreate(link) itself, already invoked, as the then argument
of the patch promise - invoke afterCreate with the explorer link
immediately, before the patch settles.  When the patch settles: nothing on
fulfilment (the then argument is not a function), a non-fatal popup with
the raw error on rejection.  On mined: afterMined with the explorer link.
On rejection of the chain call: same suppression rule as save, with the
cancel fatal message. -/
def cancelStep (url : String) (c : Campaign) (s : Option String) :
    CancelEvent → Option String × List Act
  | .transactionHash h =>
      match s with
      | some _ => (s, [])
      | none =>
          (some h,
           [.storePatchStatus "/campaigns" c.id Status.Canceled false,
            .afterCreate (url ++ "tx/" ++ h) none])
  | .patchSettled (.ok _) => (s, [])
  | .patchSettled (.error e) =>
      (s, [.errorPopupObj "Something went wrong with updating campaign" e])
  | .mined =>
      (s, [.afterMined (some (url ++ "tx/" ++ jsStr s))])
  | .failed e =>
      (s, if s.isSome && !(e.message == "") && includesSubstr e.message "unknown transaction"
          then []
          else [.errorPopup cancelFatalMsg (fatalDetail (some url) s e)])

/-- Fold of cancelStep over an event sequence. -/
def runCancel (url : String) (c : Campaign) : Option String → List CancelEvent → List Act
  | _, [] => []
  | s, ev :: rest =>
      let p := cancelStep url c s ev
      p.2 ++ runCancel url c p.1 rest

/-- The environment of one cancel call: the outcome of
Promise.all([getNetwork(), getWeb3()]) (web3 is an opaque handle) and the
event sequence of the cancelCampaign call. -/
structure CancelEnv where
  network : Except JsError (Network × Unit)
  events : List CancelEvent
deriving Repr

/-- cancel(campaign, from, afterCreate, afterMined): resolve network and
web3 together; on rejection the outer catch pops the fatal message with
both template variables unassigned; on fulfilment construct
LPPCampaign(web3, campaign.pluginAddress), invoke cancelCampaign from the
sender, and run the event sequence. -/
def cancel (c : Campaign) (sender : String) (env : CancelEnv) : List Act :=
  Act.resolveNetworkAndWeb3 ::
  (match env.network with
   | .error e => [.errorPopup cancelFatalMsg (fatalDetail none none e)]
   | .ok nw =>
       Act.newLPPCampaign c.pluginAddress ::
       Act.cancelCampaignCall sender ::
       runCancel nw.1.etherscan c none env.events)

/-- A sample store: three qualifying campaigns and two disqualified ones
(one pending with project id 0, one canceled), as in the spec scenario. -/
def sampleCampaignStore : List CampaignRecord :=
  [⟨"a", 1, Status.Active, 3, "A", "0xR", "0xP", "0xO"⟩,
   ⟨"b", 2, Status.Active, 1, "B", "0xR", "0xP", "0xO"⟩,
   ⟨"c", 0, Status.Pending, 5, "C", "0xR", "0xP", "0xO"⟩,
   ⟨"d", 3, Status.Canceled, 4, "D", "0xR", "0xP", "0xO"⟩,
   ⟨"e", 4, Status.Active, 2, "E", "0xR", "0xP", "0xO"⟩]

/-- A sample milestone store with one record in every excluded status and
two includable records for campaign m1. -/
def sampleMilestoneStore : List MilestoneRecord :=
  [⟨"m-a", "m1", MilestoneStatus.InProgress, 1⟩,
   ⟨"m-b", "m1", MilestoneStatus.Canceled, 2⟩,
   ⟨"m-c", "m1", MilestoneStatus.Proposed, 3⟩,
   ⟨"m-d", "m1", MilestoneStatus.Rejected, 4⟩,
   ⟨"m-e", "m1", MilestoneStatus.Pending, 5⟩,
   ⟨"m-f", "m1", MilestoneStatus.Completed, 6⟩,
   ⟨"m-g", "other", MilestoneStatus.InProgress, 7⟩]

/-- A sample donation store with one returned donation and two live ones. -/
def sampleDonationStore : List DonationRecord :=
  [⟨"d-a", "k1", false, 1⟩,
   ⟨"d-b", "k1", true, 2⟩,
   ⟨"d-c", "k1", false, 3⟩,
   ⟨"d-d", "other", false, 4⟩]

theorem mem_insertDescBy (key : α → Int) (x : α) (l : List α) (a : α) :
    a ∈ insertDescBy key x l ↔ a = x ∨ a ∈ l := by
  induction l with
  | nil => simp [insertDescBy]
  | cons y ys ih =>
      simp only [insertDescBy]
      split
      · simp
      · simp [ih]
        tauto

theorem pairwise_insertDescBy (key : α → Int) (x : α) (l : List α)
    (h : l.Pairwise (fun a b => key b ≤ key a)) :
    (insertDescBy key x l).Pairwise (fun a b => key b ≤ key a) := by
  induction l with
  | nil => simp [insertDescBy]
  | cons y ys ih =>
      rw [List.pairwise_cons] at h
      obtain ⟨hy, hys⟩ := h
      simp only [insertDescBy]
      split
      · rename_i hlt
        refine List.pairwise_cons.mpr ⟨?_, List.pairwise_cons.mpr ⟨hy, hys⟩⟩
        intro b hb
        rcases List.mem_cons.mp hb with rfl | hb
        · exact hlt.le
        · exact (hy b hb).trans hlt.le
      · rename_i hnlt
        refine List.pairwise_cons.mpr ⟨?_, ih hys⟩
        intro b hb
        rcases (mem_insertDescBy key x ys b).mp hb with rfl | hb
        · exact le_of_not_lt hnlt
        · exact hy b hb

theorem pairwise_sortDescBy (key : α → Int) (l : List α) :
    (sortDescBy key l).Pairwise (fun a b => key b ≤ key a) := by
  induction l with
  | nil => exact List.Pairwise.nil
  | cons x xs ih => exact pairwise_insertDescBy key x _ ih

theorem mem_sortDescBy (key : α → Int) (l : List α) (a : α) :
    a ∈ sortDescBy key l ↔ a ∈ l := by
  induction l with
  | nil => simp [sortDescBy]
  | cons x xs ih => simp [sortDescBy, mem_insertDescBy, ih]

theorem pairwise_page (key : α → Int) (l : List α) (k m : Nat) :
    (((sortDescBy key l).drop k).take m).Pairwise (fun a b => key b ≤ key a) :=
  (pairwise_sortDescBy key l).sublist
    ((List.take_sublist _ _).trans (List.drop_sublist _ _))

theorem mem_page (key : α → Int) (l : List α) (k m : Nat) (a : α)
    (h : a ∈ ((sortDescBy key l).drop k).take m) : a ∈ l :=
  (mem_sortDescBy key l a).mp
    (((List.take_sublist _ _).trans (List.drop_sublist _ _)).subset h)

theorem includes_unknown_ne_empty (m : String)
    (h : includesSubstr m "unknown transaction" = true) : (m == "") = false := by
  cases hm : m == ""
  · rfl
  · exfalso
    have hme : m = "" := by simpa using hm
    subst hme
    exact absurd h (by decide)

/-- C5: getCampaigns queries only campaigns with project id strictly greater
than 0 and Active status, sorted by creation time descending, with defaults
limit 100 and skip 0; on success it invokes onSuccess with the response data
mapped into Campaign objects in order and the total count, and on rejection
it invokes onError with the failure. -/
theorem getCampaigns_active_sorted_spec (limit skip : Nat)
    (store : List CampaignRecord) (e : JsError) :
    getCampaigns limit skip (.error e) = [.onError e] ∧
    getCampaigns limit skip (.ok store) =
      [.onSuccess
        ((campaignsFindEval store (getCampaignsQuery limit skip)).data.map
          (fun r => Campaign.fromRecord (some r)))
        (campaignsFindEval store (getCampaignsQuery limit skip)).total] ∧
    getCampaignsQuery limit skip = ⟨0, Status.Active, limit, skip, true⟩ ∧
    (∀ r ∈ (campaignsFindEval store (getCampaignsQuery limit skip)).data,
        0 < r.projectId ∧ r.status = Status.Active) ∧
    ((campaignsFindEval store (getCampaignsQuery limit skip)).data).Pairwise
      (fun a b => b.createdAt ≤ a.createdAt) ∧
    getCampaignsDefaultLimit = 100 ∧ getCampaignsDefaultSkip = 0 := by
  have hdata : (campaignsFindEval store (getCampaignsQuery limit skip)).data
      = ((sortDescBy CampaignRecord.createdAt
           (store.filter (campaignMatches (getCampaignsQuery limit skip)))).drop skip).take
          limit := rfl
  refine ⟨rfl, rfl, rfl, ?_, ?_, rfl, rfl⟩
  · intro r hr
    rw [hdata] at hr
    have h1 : r ∈ store.filter (campaignMatches (getCampaignsQuery limit skip)) :=
      mem_page _ _ _ _ _ hr
    have h2 := (List.mem_filter.mp h1).2
    simp only [campaignMatches, getCampaignsQuery, Bool.and_eq_true, beq_iff_eq,
      decide_eq_true_eq] at h2
    exact ⟨h2.1, h2.2⟩
  · rw [hdata]
    exact pairwise_page _ _ _ _

/-- Closed instance of getCampaigns_active_sorted_spec on the sample store. -/
theorem getCampaigns_active_sorted_spec_witness :
    0 < (⟨"a", 1, Status.Active, 3, "A", "0xR", "0xP", "0xO"⟩ : CampaignRecord).projectId ∧
    (⟨"a", 1, Status.Active, 3, "A", "0xR", "0xP", "0xO"⟩ : CampaignRecord).status
      = Status.Active :=
  (getCampaigns_active_sorted_spec 10 0 sampleCampaignStore ⟨"boom"⟩).2.2.2.1
    ⟨"a", 1, Status.Active, 3, "A", "0xR", "0xP", "0xO"⟩ (by decide)

/-- C6: getMilestones queries the milestones of the campaign excluding any
record whose status is Canceled, Proposed, Rejected, or Pending, sorted by
creation time descending, and on success passes the raw records, not wrapped
in a Milestone constructor, plus the total count to onSuccess. -/
theorem getMilestones_excludes_terminal_spec (id : String) (limit skip : Nat)
    (store : List MilestoneRecord) (e : JsError) :
    getMilestones id limit skip (.error e) = [.onError e] ∧
    getMilestones id limit skip (.ok store) =
      [.onSuccess (milestonesFindEval store (getMilestonesQuery id limit skip)).data
        (milestonesFindEval store (getMilestonesQuery id limit skip)).total] ∧
    getMilestonesQuery id limit skip =
      ⟨id, [MilestoneStatus.Canceled, MilestoneStatus.Proposed,
            MilestoneStatus.Rejected, MilestoneStatus.Pending], true, limit, skip⟩ ∧
    (∀ r ∈ (milestonesFindEval store (getMilestonesQuery id limit skip)).data,
        r.campaignId = id ∧
        r.status ≠ MilestoneStatus.Canceled ∧ r.status ≠ MilestoneStatus.Proposed ∧
        r.status ≠ MilestoneStatus.Rejected ∧ r.status ≠ MilestoneStatus.Pending) ∧
    ((milestonesFindEval store (getMilestonesQuery id limit skip)).data).Pairwise
      (fun a b => b.createdAt ≤ a.createdAt) := by
  have hdata : (milestonesFindEval store (getMilestonesQuery id limit skip)).data
      = ((sortDescBy MilestoneRecord.createdAt
           (store.filter (milestoneMatches (getMilestonesQuery id limit skip)))).drop
          skip).take limit := rfl
  refine ⟨rfl, rfl, rfl, ?_, ?_⟩
  · intro r hr
    rw [hdata] at hr
    have h1 : r ∈ store.filter (milestoneMatches (getMilestonesQuery id limit skip)) :=
      mem_page _ _ _ _ _ hr
    have h2 := (List.mem_filter.mp h1).2
    simp only [milestoneMatches, getMilestonesQuery, Bool.and_eq_true, beq_iff_eq,
      Bool.not_eq_true'] at h2
    refine ⟨h2.1, ?_, ?_, ?_, ?_⟩ <;> intro hc <;> rw [hc] at h2 <;>
      exact absurd h2.2 (by decide)
  · rw [hdata]
    exact pairwise_page _ _ _ _

/-- Closed instance of getMilestones_excludes_terminal_spec on the sample store. -/
theorem getMilestones_excludes_terminal_spec_witness :
    (⟨"m-f", "m1", MilestoneStatus.Completed, 6⟩ : MilestoneRecord).campaignId = "m1" ∧
    (⟨"m-f", "m1", MilestoneStatus.Completed, 6⟩ : MilestoneRecord).status
      ≠ MilestoneStatus.Canceled ∧
    (⟨"m-f", "m1", MilestoneStatus.Completed, 6⟩ : MilestoneRecord).status
      ≠ MilestoneStatus.Proposed ∧
    (⟨"m-f", "m1", MilestoneStatus.Completed, 6⟩ : MilestoneRecord).status
      ≠ MilestoneStatus.Rejected ∧
    (⟨"m-f", "m1", MilestoneStatus.Completed, 6⟩ : MilestoneRecord).status
      ≠ MilestoneStatus.Pending :=
  (getMilestones_excludes_terminal_spec "m1" 100 0 sampleMilestoneStore ⟨"boom"⟩).2.2.2.1
    ⟨"m-f", "m1", MilestoneStatus.Completed, 6⟩ (by decide)

/-- C7: subscribeDonations opens a push subscription (re-list on every
change) filtered to donations of the campaign with the returned flag false,
sorted by creation time descending, with the type-and-giver schema; every
emission delivers the full current result set mapped into Donation objects
to onSuccess, delivery failures go to onError, and the call returns a
cancellable subscription handle. -/
theorem subscribeDonations_spec (id : String)
    (emissions : List (Except JsError (List DonationRecord))) :
    (subscribeDonations id emissions).1.active = true ∧
    ((subscribeDonations id emissions).1.unsubscribe).active = false ∧
    subscribeDonationsQuery id = ⟨id, false, true, "includeTypeAndGiverDetails", "always"⟩ ∧
    (subscribeDonations id emissions).2 =
      emissions.map (fun em =>
        match em with
        | .error e => SubAct.onError e
        | .ok store =>
            SubAct.onSuccess
              ((donationsFindEval store (subscribeDonationsQuery id)).map
                Donation.fromRecord)) ∧
    (∀ store, ∀ r ∈ donationsFindEval store (subscribeDonationsQuery id),
        r.isReturn = false ∧ r.campaignId = id) ∧
    (∀ store, (donationsFindEval store (subscribeDonationsQuery id)).Pairwise
        (fun a b => b.createdAt ≤ a.createdAt)) := by
  refine ⟨rfl, rfl, rfl, rfl, ?_, ?_⟩
  · intro store r hr
    have h1 : r ∈ store.filter (donationMatches (subscribeDonationsQuery id)) :=
      (mem_sortDescBy _ _ _).mp hr
    have h2 := (List.mem_filter.mp h1).2
    simp only [donationMatches, subscribeDonationsQuery, Bool.and_eq_true, beq_iff_eq] at h2
    exact ⟨h2.2, h2.1⟩
  · intro store
    exact pairwise_sortDescBy _ _

/-- Closed instance of subscribeDonations_spec on the sample store. -/
theorem subscribeDonations_spec_witness :
    (⟨"d-a", "k1", false, 1⟩ : DonationRecord).isReturn = false ∧
    (⟨"d-a", "k1", false, 1⟩ : DonationRecord).campaignId = "k1" :=
  (subscribeDonations_spec "k1" []).2.2.2.2.1 sampleDonationStore
    ⟨"d-a", "k1", false, 1⟩ (by decide)

/-- C8: if the find of get(id) resolves with at least one record, get
resolves with a Campaign built from the first record, whose identity matches
the requested id; if the find rejects, get rejects with the same underlying
failure, untransformed. -/
theorem get_resolves_first_record (id : String) (store : List CampaignRecord)
    (e : JsError) (r : CampaignRecord) (rest : List CampaignRecord)
    (h : idFindEval store id = r :: rest) :
    CampaignService.get id (.error e) = .error e ∧
    CampaignService.get id (.ok store) = .ok (Campaign.fromRecord (some r)) ∧
    (Campaign.fromRecord (some r)).id = some id := by
  have hmem : r ∈ idFindEval store id := by
    rw [h]
    exact List.mem_cons_self r rest
  have hid : r._id = id := by
    have := (List.mem_filter.mp hmem).2
    simpa using this
  refine ⟨rfl, ?_, ?_⟩
  · simp [CampaignService.get, h]
  · simp [Campaign.fromRecord, hid]

/-- Closed instance of get_resolves_first_record on a one-record store. -/
theorem get_resolves_first_record_witness :
    CampaignService.get "x1" (.ok [⟨"x1", 1, Status.Active, 0, "X", "0xR", "0xP", "0xO"⟩]) =
      .ok (Campaign.fromRecord (some ⟨"x1", 1, Status.Active, 0, "X", "0xR", "0xP", "0xO"⟩)) :=
  (get_resolves_first_record "x1" [⟨"x1", 1, Status.Active, 0, "X", "0xR", "0xP", "0xO"⟩]
    ⟨"boom"⟩ ⟨"x1", 1, Status.Active, 0, "X", "0xR", "0xP", "0xO"⟩ [] (by decide)).2.1

/-- C10: in the update branch of save, a store patch rejection produces
nothing: afterMined is not invoked and no error is reported anywhere - the
patch promise chain has no catch, so the trace is the patch call alone. -/
theorem save_update_patch_rejection_silent (c : Campaign) (cid sender : String)
    (env : SaveEnv) (e : JsError) (hid : c.id = some cid)
    (hp : env.patchOutcome = .error e) :
    save c sender env = [.storePatch "campaigns" cid (c.toFeathers none)] := by
  simp [save, hid, hp]

/-- Closed instance of save_update_patch_rejection_silent. -/
theorem save_update_patch_rejection_silent_witness :
    save ⟨some "c1", "T", "0xR", "0xP"⟩ "0xF" ⟨.ok ⟨"u/"⟩, .error ⟨"nope"⟩, []⟩ =
      [.storePatch "campaigns" "c1" (Campaign.toFeathers ⟨some "c1", "T", "0xR", "0xP"⟩ none)] :=
  save_update_patch_rejection_silent ⟨some "c1", "T", "0xR", "0xP"⟩ "c1" "0xF"
    ⟨.ok ⟨"u/"⟩, .error ⟨"nope"⟩, []⟩ ⟨"nope"⟩ rfl rfl

/-- C2: save on a campaign with an id makes no blockchain call - no network
resolution, no factory invocation - and its only store write is the patch of
the existing record with the serialized campaign; on successful patch it
invokes afterMined with no argument. -/
theorem save_update_branch_no_blockchain (c : Campaign) (cid sender : String)
    (env : SaveEnv) (hid : c.id = some cid) :
    save c sender env =
      Act.storePatch "campaigns" cid (c.toFeathers none) ::
      (match env.patchOutcome with
       | .ok _ => [Act.afterMined none]
       | .error _ => []) ∧
    (∀ a ∈ save c sender env, a.isBlockchain = false) ∧
    (save c sender env).filter Act.isStoreWrite =
      [Act.storePatch "campaigns" cid (c.toFeathers none)] ∧
    (env.patchOutcome = .ok () →
      save c sender env =
        [Act.storePatch "campaigns" cid (c.toFeathers none), Act.afterMined none]) := by
  obtain ⟨nw, po, evs⟩ := env
  cases po with
  | ok u =>
      cases u
      refine ⟨by simp [save, hid], ?_, by simp [save, hid, Act.isStoreWrite], ?_⟩
      · intro a ha
        simp only [save, hid] at ha
        rcases List.mem_cons.mp ha with rfl | ha
        · rfl
        · rcases List.mem_singleton.mp ha with rfl
          rfl
      · intro _
        simp [save, hid]
  | error pe =>
      refine ⟨by simp [save, hid], ?_, by simp [save, hid, Act.isStoreWrite], ?_⟩
      · intro a ha
        simp only [save, hid] at ha
        rcases List.mem_singleton.mp ha with rfl
        rfl
      · intro hcontra
        exact absurd hcontra (by simp)

/-- Closed instance of save_update_branch_no_blockchain. -/
theorem save_update_branch_no_blockchain_witness :
    save ⟨some "c1", "T", "0xR", "0xP"⟩ "0xF" ⟨.ok ⟨"u/"⟩, .ok (), []⟩ =
      [Act.storePatch "campaigns" "c1" (Campaign.toFeathers ⟨some "c1", "T", "0xR", "0xP"⟩ none),
       Act.afterMined none] :=
  (save_update_branch_no_blockchain ⟨some "c1", "T", "0xR", "0xP"⟩ "c1" "0xF"
    ⟨.ok ⟨"u/"⟩, .ok (), []⟩ rfl).2.2.2 rfl

/-- C4: in the create branch, when the factory call emits transaction hash H,
the started store create resolves with the new id, and the call then mines,
the trace is: network resolution, the factory invoked as
newCampaign(title, empty string, 0, reviewerAddress) from the sender, the
store create of the serialized campaign carrying H, afterCreate once with
the explorer link url tx/ H and the new store id, and only then afterMined
with the same explorer link. -/
theorem save_create_success_trace (t rev pa sender url h newId : String)
    (po : Except JsError Unit) :
    save ⟨none, t, rev, pa⟩ sender
      ⟨.ok ⟨url⟩, po, [.transactionHash h, .createResolved newId, .mined]⟩ =
      [.resolveNetwork,
       .factoryNewCampaign t "" 0 rev sender,
       .storeCreate "campaigns" (Campaign.toFeathers ⟨none, t, rev, pa⟩ (some h)),
       .afterCreate (url ++ "tx/" ++ h) (some newId),
       .afterMined (some (url ++ "tx/" ++ h))] := by
  simp [save, runSave, saveStep, jsStr]

/-- C3: in both save and cancel, a rejection of the chain call whose message
contains the substring unknown transaction, arriving after a transaction
hash was observed, is ignored entirely - no error sink, no further
callbacks; any other rejection (a different message, or one arriving before
a hash was observed) is reported through the fatal error sink with the
explorer link and the stringified error. -/
theorem unknown_transaction_suppression (url : String) (c : Campaign)
    (s : Option String) (e : JsError) :
    (s.isSome = true → includesSubstr e.message "unknown transaction" = true →
      saveStep url c s (.failed e) = (s, []) ∧
      cancelStep url c s (.failed e) = (s, [])) ∧
    (s.isSome = false ∨ includesSubstr e.message "unknown transaction" = false →
      saveStep url c s (.failed e) =
        (s, [.errorPopup saveFatalMsg (fatalDetail (some url) s e)]) ∧
      cancelStep url c s (.failed e) =
        (s, [.errorPopup cancelFatalMsg (fatalDetail (some url) s e)])) := by
  constructor
  · intro hs hinc
    have hne := includes_unknown_ne_empty e.message hinc
    constructor
    · simp [saveStep, hs, hinc, hne]
    · simp [cancelStep, hs, hinc, hne]
  · intro hcase
    rcases hcase with hs | hinc
    · constructor
      · simp [saveStep, hs]
      · simp [cancelStep, hs]
    · constructor
      · simp [saveStep, hinc]
      · simp [cancelStep, hinc]

/-- Closed instance of unknown_transaction_suppression: a suppressed
rejection after a hash, and a reported one before any hash. -/
theorem unknown_transaction_suppression_witness :
    (saveStep "u/" ⟨none, "T", "0xR", "0xP"⟩ (some "0xH")
        (.failed ⟨"unknown transaction hash"⟩) = (some "0xH", []) ∧
      cancelStep "u/" ⟨none, "T", "0xR", "0xP"⟩ (some "0xH")
        (.failed ⟨"unknown transaction hash"⟩) = (some "0xH", [])) ∧
    (saveStep "u/" ⟨none, "T", "0xR", "0xP"⟩ none
        (.failed ⟨"unknown transaction hash"⟩) =
        (none, [.errorPopup saveFatalMsg
          (fatalDetail (some "u/") none ⟨"unknown transaction hash"⟩)]) ∧
      cancelStep "u/" ⟨none, "T", "0xR", "0xP"⟩ none
        (.failed ⟨"unknown transaction hash"⟩) =
        (none, [.errorPopup cancelFatalMsg
          (fatalDetail (some "u/") none ⟨"unknown transaction hash"⟩)])) :=
  ⟨(unknown_transaction_suppression "u/" ⟨none, "T", "0xR", "0xP"⟩ (some "0xH")
      ⟨"unknown transaction hash"⟩).1 rfl (by decide),
   (unknown_transaction_suppression "u/" ⟨none, "T", "0xR", "0xP"⟩ none
      ⟨"unknown transaction hash"⟩).2 (Or.inl rfl)⟩

/-- C1 evaluated at a concrete input: the code passes afterCreate(link),
already invoked, as the then argument of the patch promise, so afterCreate
fires immediately when the transactionHash event is observed - here the
status patch afterwards rejects, so the patch never completed, yet
afterCreate already ran.  This refutes the claim that the patch completes
strictly before afterCreate, and contradicts the function doc comment in
the source (afterCreate is to be triggered after the campaign is cancelled
in feathers). -/
theorem cancel_afterCreate_before_patch_completion :
    cancel ⟨some "c1", "T", "0xR", "0xP"⟩ "0xF"
      ⟨.ok (⟨"https://etherscan.io/"⟩, ()),
       [.transactionHash "0xH", .patchSettled (.error ⟨"patch failed"⟩), .mined]⟩ =
      [.resolveNetworkAndWeb3,
       .newLPPCampaign "0xP",
       .cancelCampaignCall "0xF",
       .storePatchStatus "/campaigns" (some "c1") Status.Canceled false,
       .afterCreate "https://etherscan.io/tx/0xH" none,
       .errorPopupObj "Something went wrong with updating campaign" ⟨"patch failed"⟩,
       .afterMined (some "https://etherscan.io/tx/0xH")] := by
  decide
